import Mathlib

/-!
Shallow embedding of the websocket API handler
(Modules/api_handler.py: BaseWebsocketAPIHandler and WebsocketAPIHandler21).

Frames on the wire are JSON values; the decode step (json.loads) is
abstracted: an incoming message is given as Option Json, where none stands
for a message that raises JSONDecodeError.  Python dictionaries are modelled
as association lists with insertion-order update semantics; Python sets of
UUIDs as Finset Nat (a UUID is its 128-bit integer value).  Exceptions are
modelled as an error type threaded through Except / explicit outcomes.
-/

inductive Json where
  | null : Json
  | bool (b : Bool) : Json
  | num (n : Int) : Json
  | str (s : String) : Json
  | arr (xs : List Json) : Json
  | obj (kvs : List (String × Json)) : Json

/-- Python exception classes that the handler code can raise or catch. -/
inductive PyError where
  | jsonDecodeError : PyError
  | keyError : PyError
  | typeError : PyError
  | valueError : PyError
  | attributeError : PyError
  | apiError (msg : String) : PyError
  deriving DecidableEq, Repr

abbrev JObj := List (String × Json)

/-- Lookup in a Python dict with string keys (first binding wins; the
update operation below keeps keys unique). -/
def jlookup : JObj → String → Option Json
  | [], _ => none
  | (k', v') :: rest, k => if k' = k then some v' else jlookup rest k

/-- Python dict assignment d[k] = v: replaces the value in place if the key
exists (keeping its position), otherwise appends the new binding. -/
def setKey : JObj → String → Json → JObj
  | [], k, v => [(k, v)]
  | (k', v') :: rest, k, v =>
    if k' = k then (k, v) :: rest else (k', v') :: setKey rest k v

/-- Lookup in a Python dict keyed by UUIDs (the _request_responses dict). -/
def lookupN : List (Nat × Json) → Nat → Option Json
  | [], _ => none
  | (k', v') :: rest, k => if k' = k then some v' else lookupN rest k

/-- Assignment in a Python dict keyed by UUIDs. -/
def setKeyN : List (Nat × Json) → Nat → Json → List (Nat × Json)
  | [], k, v => [(k, v)]
  | (k', v') :: rest, k, v =>
    if k' = k then (k, v) :: rest else (k', v') :: setKeyN rest k v

/-- Python subscription value[key] for a string key: returns the entry of a
dict, raises KeyError for a missing key, and raises TypeError when the
value is not a dict (lists, strings, numbers, booleans and None are all not
subscriptable by a string). -/
def getItem : Json → String → Except PyError Json
  | .obj kvs, k =>
    match jlookup kvs k with
    | some v => .ok v
    | none => .error .keyError
  | _, _ => .error .typeError

section UUIDModel

/-- Numeric value of a hexadecimal digit character, if it is one. -/
def hexDigitVal : Char → Option Nat := fun c =>
  if '0' ≤ c ∧ c ≤ '9' then some (c.toNat - '0'.toNat)
  else if 'a' ≤ c ∧ c ≤ 'f' then some (c.toNat - 'a'.toNat + 10)
  else if 'A' ≤ c ∧ c ≤ 'F' then some (c.toNat - 'A'.toNat + 10)
  else none

/-- Value of a hex digit string, most significant digit first. -/
def hexValueAux : List Char → Nat → Option Nat
  | [], acc => some acc
  | c :: cs, acc =>
    match hexDigitVal c with
    | some d => hexValueAux cs (16 * acc + d)
    | none => none

/-- Does the pattern occur at the head of the character list. -/
def headMatches (pat cs : List Char) : Bool := cs.take pat.length = pat

/-- Fuel-driven scan removing occurrences of a pattern; a non-empty match
consumes at least one character, so fuel equal to the list length is always
enough. -/
def removeSubAux (pat : List Char) : Nat → List Char → List Char
  | 0, cs => cs
  | _ + 1, [] => []
  | fuel + 1, c :: cs =>
    if headMatches pat (c :: cs) then
      removeSubAux pat fuel ((c :: cs).drop pat.length)
    else
      c :: removeSubAux pat fuel cs

/-- Remove every occurrence of a non-empty pattern, scanning left to right
without overlap: models the Python str.replace(pat, empty) calls in the
uuid.UUID constructor. -/
def removeSub (pat cs : List Char) : List Char :=
  if pat = [] then cs else removeSubAux pat cs.length cs

/-- Python str.strip applied with the two curly bracket characters: removes
those characters from both ends of the string. -/
def stripBraces (cs : List Char) : List Char :=
  ((cs.dropWhile (fun c => c = '\x7b' ∨ c = '\x7d')).reverse.dropWhile
      (fun c => c = '\x7b' ∨ c = '\x7d')).reverse

/-- Model of the Python uuid.UUID constructor on a string argument: remove
urn and uuid prefixes, strip curly brackets at the ends, drop the dashes,
require exactly 32 hexadecimal digits, and read them as a 128-bit integer.
Raises ValueError otherwise.  The digit-grouping underscores and sign signs
tolerated by the int builtin are not modelled. -/
def uuidFromString (s : String) : Option Nat :=
  let cs := removeSub "uuid:".toList (removeSub "urn:".toList s.toList)
  let cs := (stripBraces cs).filter (fun c => c ≠ '-')
  if cs.length = 32 then hexValueAux cs 0 else none

/-- Model of calling uuid.UUID on an arbitrary decoded JSON value: a string
is parsed (ValueError when malformed); any non-string argument makes the
constructor call replace on it and raise AttributeError. -/
def pyUUID : Json → Except PyError Nat
  | .str s =>
    match uuidFromString s with
    | some n => .ok n
    | none => .error .valueError
  | _ => .error .attributeError

/-- Lowercase hexadecimal digit character for a value below 16. -/
def hexDigitChar (n : Nat) : Char :=
  if n < 10 then Char.ofNat ('0'.toNat + n) else Char.ofNat ('a'.toNat + n - 10)

/-- The 32 hex digits of a 128-bit value, most significant first. -/
def toHex32 (n : Nat) : List Char :=
  (List.range 32).map (fun i => hexDigitChar (n / 16 ^ (31 - i) % 16))

/-- Model of str applied to a UUID: the canonical 8-4-4-4-12 dashed
lowercase hexadecimal form. -/
def uuidStr (n : Nat) : String :=
  let h := toHex32 n
  ⟨h.take 8 ++ '-' :: (h.drop 8).take 4 ++ '-' :: (h.drop 12).take 4 ++
    '-' :: (h.drop 16).take 4 ++ '-' :: h.drop 20⟩

end UUIDModel

/-!
Handler state and the listener.  State of a BaseWebsocketAPIHandler
instance together with the wire log of frames it has sent.  The flag
listenerAlive records whether the background _message_handler task is still
running (it dies when an uncaught exception escapes the loop body).
-/

structure HandlerState where
  waiting : Finset Nat
  responses : List (Nat × Json)
  connectionOpen : Bool
  sent : List Json
  listenerAlive : Bool

/-- Outcome of one iteration of the _message_handler loop body. -/
inductive StepOutcome where
  | next : StepOutcome
  | crash (e : PyError) : StepOutcome
  deriving DecidableEq, Repr

/-- Why the _message_handler loop stopped. -/
inductive LoopExit where
  | closed : LoopExit
  | crashed (e : PyError) : LoopExit
  deriving DecidableEq, Repr

/-- One iteration of the _message_handler loop body on a received message
(none models a message on which json.loads raises JSONDecodeError).
JSONDecodeError, KeyError on the meta and request_id lookups, and
ValueError from the UUID constructor are caught, logged and skipped; any
other exception (TypeError from subscribing a non-dict, AttributeError from
UUID on a non-string) escapes the loop. -/
def handleMessage (st : HandlerState) (frame : Option Json) :
    HandlerState × StepOutcome :=
  match frame with
  | none => (st, .next)
  | some data =>
    match getItem data "meta" with
    | .error .keyError => (st, .next)
    | .error e => (st, .crash e)
    | .ok meta =>
      match getItem meta "request_id" with
      | .error .keyError => (st, .next)
      | .error e => (st, .crash e)
      | .ok rid =>
        match pyUUID rid with
        | .error .valueError => (st, .next)
        | .error e => (st, .crash e)
        | .ok id =>
          if id ∈ st.waiting then
            ({ st with
                responses := setKeyN st.responses id data,
                waiting := st.waiting.erase id }, .next)
          else
            (st, .next)

/-- The _message_handler loop run over a finite incoming message sequence;
exhausting the sequence models the transport being closed (recv raising
ConnectionClosed ends the task). -/
def messageHandlerLoop (st : HandlerState) :
    List (Option Json) → HandlerState × LoopExit
  | [] => (st, .closed)
  | f :: rest =>
    match handleMessage st f with
    | (st', .next) => messageHandlerLoop st' rest
    | (st', .crash e) => (st', .crashed e)

/-- Effect on handler state of the listener task being offered one message:
a dead listener processes nothing, and an uncaught exception kills it. -/
def listenerStep (st : HandlerState) (frame : Option Json) : HandlerState :=
  if st.listenerAlive then
    match handleMessage st frame with
    | (st', .next) => st'
    | (st', .crash _) => { st' with listenerAlive := false }
  else st

/-- The listener offered a sequence of messages, one per scheduler slot. -/
def processFrames (st : HandlerState) : List (Option Json) → HandlerState
  | [] => st
  | f :: rest => processFrames (listenerStep st f) rest

/-!
The request-side coroutines.  Each await is a point where the event loop
may run the listener; a run of request is therefore parameterized by the
messages the listener handles during each suspension.
-/

/-- Result of running a coroutine to completion, or failing to: hang means
the coroutine is still suspended when the supplied schedule runs out
(a request whose identifier is never resolved sleeps forever). -/
inductive RunResult where
  | val (v : Json) : RunResult
  | err (e : PyError) : RunResult
  | hang : RunResult

/-- Translation of _send_raw on a dict argument: raises APIError when not
connected, otherwise serializes the dict and sends it. -/
def sendRaw (st : HandlerState) (data : Json) : Except PyError HandlerState :=
  if st.connectionOpen then
    .ok { st with sent := st.sent ++ [data] }
  else
    .error (.apiError "Not connected to any server")

/-- Lines 143 to 147 of request: mint the identifier (passed in as the
value drawn from uuid4) and attach its textual form to the meta block of
the caller-supplied dict, creating the block when absent.  When a meta
entry exists but is not a dict, the item assignment raises TypeError. -/
def attachRequestId (data : JObj) (requestId : Nat) : Except PyError JObj :=
  match jlookup data "meta" with
  | some (.obj m) =>
    .ok (setKey data "meta" (.obj (setKey m "request_id" (.str (uuidStr requestId)))))
  | some _ => .error .typeError
  | none => .ok (data ++ [("meta", .obj [("request_id", .str (uuidStr requestId))])])

/-- The while loop of _retrieve_response: before each sleep the waiting set
is tested; during each sleep the listener may handle one message.  When the
identifier has left the waiting set the stored response is read back
(a missing entry would raise KeyError). -/
def waitLoopRun (rid : Nat) (st : HandlerState) :
    List (Option Json) → RunResult × HandlerState
  | [] =>
    if rid ∈ st.waiting then (.hang, st)
    else
      match lookupN st.responses rid with
      | some v => (.val v, st)
      | none => (.err .keyError, st)
  | f :: rest =>
    if rid ∈ st.waiting then waitLoopRun rid (listenerStep st f) rest
    else
      match lookupN st.responses rid with
      | some v => (.val v, st)
      | none => (.err .keyError, st)

/-- Translation of _retrieve_response: raises APIError at entry when the
identifier is not in the waiting set, then suspends until resolved. -/
def retrieveResponse (st : HandlerState) (rid : Nat)
    (frames : List (Option Json)) : RunResult × HandlerState :=
  if rid ∈ st.waiting then waitLoopRun rid st frames
  else (.err (.apiError "Cannot wait for response to a request that was never made"), st)

/-- Messages the listener dequeues at the two suspension points inside a
run of request: during the await of the send, and during the sleeps of
_retrieve_response. -/
structure Sched where
  duringSend : List (Option Json)
  duringWait : List (Option Json)

/-- Observables of one run of request: the outcome, the final value of the
caller-owned envelope dict (request mutates it in place), and the final
handler state. -/
structure RequestRun where
  result : RunResult
  envelope : JObj
  state : HandlerState

/-- Translation of request (lines 139 to 151): mint and attach the
identifier, send a shallow copy of the dict, register the identifier in
the waiting set, and suspend on _retrieve_response.  The registration
happens after the send await returns. -/
def request (st : HandlerState) (requestId : Nat) (data : JObj)
    (sched : Sched) : RequestRun :=
  match attachRequestId data requestId with
  | .error e => ⟨.err e, data, st⟩
  | .ok data' =>
    match sendRaw st (.obj data') with
    | .error e => ⟨.err e, data', st⟩
    | .ok st1 =>
      let st2 := processFrames st1 sched.duringSend
      let st3 := { st2 with waiting := insert requestId st2.waiting }
      let r := retrieveResponse st3 requestId sched.duringWait
      ⟨r.1, data', r.2⟩

/-!
Connection establishment.  The call to websockets.connect is abstracted as
succeeding and leaving an open transport handle assigned to the connection
attribute; the handshake frame subsequently received is an input of the
model (none when json.loads raises JSONDecodeError on it).
-/

/-- What a call to connect can end as. -/
inductive ConnectResult where
  | success : ConnectResult
  | raised (e : PyError) : ConnectResult
  deriving DecidableEq, Repr

/-- Observables after a connect call: its outcome, whether a transport
handle exists and is open afterwards (the connected property), and whether
the listener task was started. -/
structure ConnectOutcome where
  result : ConnectResult
  connectionOpen : Bool
  listenerStarted : Bool
  deriving DecidableEq, Repr

/-- The version lookup performed on the decoded handshake frame,
connect_message under meta then under API-Version. -/
def versionField (j : Json) : Except PyError Json :=
  match getItem j "meta" with
  | .ok meta => getItem meta "API-Version"
  | .error e => .error e

/-- Python equality between a decoded JSON value and a str constant:
true exactly when the value is that string (cross-type equality is false). -/
def jsonStrEq (v : Json) (s : String) : Bool :=
  match v with
  | .str t => t = s
  | _ => false

/-- Translation of connect (lines 56 to 82): refuse when already
connected, open the transport, read and decode the handshake, compare the
declared version against the version the instance requires, and start the
listener task.  JSONDecodeError and a mismatched version raise APIError out
of the call; a KeyError from the version lookup is only logged; a TypeError
from subscribing a non-dict escapes uncaught.  The transport, already
assigned, is closed on none of the failure paths. -/
def connect (alreadyConnected : Bool) (handshake : Option Json)
    (apiVersion : String) : ConnectOutcome :=
  if alreadyConnected then
    ⟨.raised (.apiError "Already connected to a server"), true, false⟩
  else
    match handshake with
    | none =>
      ⟨.raised (.apiError "Connect message from the API could not be parsed"),
        true, false⟩
    | some msg =>
      match versionField msg with
      | .error .keyError => ⟨.success, true, true⟩
      | .error e => ⟨.raised e, true, false⟩
      | .ok v =>
        if jsonStrEq v apiVersion then ⟨.success, true, true⟩
        else ⟨.raised (.apiError "Mismatched API and client versions!"), true, false⟩

/-!
The concrete v2.1 handler subclass.
-/

/-- The api_version attribute of WebsocketAPIHandler21. -/
def apiVersion21 : String := "v2.1"

/-- Python truthiness of a decoded value: None, False, zero, and empty
strings and containers are falsy. -/
def pyTruthy : Json → Bool
  | .null => false
  | .bool b => b
  | .num n => n != 0
  | .str s => s != ""
  | .arr xs => !xs.isEmpty
  | .obj kvs => !kvs.isEmpty

/-- The attributes of a Rescue object that update_rescue touches: its
case_id attribute and its json serialization method. -/
structure Rescue where
  case_id : Json
  json : Bool → Json

/-- Translation of WebsocketAPIHandler21.update_rescue (lines 177 to 190):
refuse a rescue with a falsy case_id before sending anything, otherwise
build the update envelope and delegate to request. -/
def updateRescue (st : HandlerState) (requestId : Nat) (sched : Sched)
    (rescue : Rescue) (full : Bool) : RunResult × HandlerState :=
  if !pyTruthy rescue.case_id then
    (.err (.apiError "Cannot send rescue without ID to the API"), st)
  else
    let req : JObj :=
      [("action", .arr [.str "rescues", .str "update"]),
       ("id", rescue.case_id),
       ("data", rescue.json full)]
    let r := request st requestId req sched
    (r.result, r.state)

/-!
Derived inspection helpers used in the statements of the theorems.
-/

/-- The correlation identifier a frame resolves to in the listener: the
value of meta.request_id parsed as a UUID, when every step succeeds. -/
def frameRid (frame : Option Json) : Option Nat :=
  match frame with
  | none => none
  | some data =>
    match getItem data "meta" with
    | .error _ => none
    | .ok meta =>
      match getItem meta "request_id" with
      | .error _ => none
      | .ok rid =>
        match pyUUID rid with
        | .error _ => none
        | .ok id => some id

/-- Shapes of received messages on which every exception of the loop body
is one of the caught ones: undecodable messages, decoded dicts without a
meta entry, dicts whose meta dict has no request_id entry, and dicts whose
request_id is a string (well-formed as a UUID or not).  Outside this set
the loop body raises TypeError or AttributeError. -/
def benignShape (frame : Option Json) : Bool :=
  match frame with
  | none => true
  | some data =>
    match getItem data "meta" with
    | .error .keyError => true
    | .error _ => false
    | .ok meta =>
      match getItem meta "request_id" with
      | .error .keyError => true
      | .error _ => false
      | .ok rid =>
        match rid with
        | .str _ => true
        | _ => false

/-- Top-level keys of a decoded frame, used to tell concrete frames apart. -/
def topKeys : Json → List String
  | .obj kvs => kvs.map Prod.fst
  | _ => []

/-- The request_id entry of the meta dict of an envelope, when both exist. -/
def metaRequestId (data : JObj) : Option Json :=
  match jlookup data "meta" with
  | some (.obj m) => jlookup m "request_id"
  | _ => none

/-!
Concrete fixtures for the scenario theorems: a freshly connected handler, a
plain update envelope, and the server response frame of the concrete
scenario in the spec (the minted identifier is taken to be 0).
-/

def initialOpenState : HandlerState := ⟨∅, [], true, [], true⟩

def sampleEnvelope : JObj :=
  [("action", .arr [.str "rescues", .str "update"]), ("data", .obj [])]

/-- The server reply of the concrete scenario: echoes the identifier and
carries the payload under data. -/
def sampleResponse : Json :=
  .obj [("meta", .obj [("request_id", .str (uuidStr 0))]),
        ("data", .obj [("status", .str "ok")])]

/-- The data field of sampleResponse alone. -/
def samplePayload : Json := .obj [("status", .str "ok")]

/-- A handler state in which request 0 has already been resolved by the
listener: its identifier has left the waiting set and its response sits
unconsumed in the response store. -/
def resolvedState : HandlerState := ⟨∅, [(0, sampleResponse)], true, [], true⟩

/-- Handshake frame declaring version v1.0. -/
def handshakeV10 : Json := .obj [("meta", .obj [("API-Version", .str "v1.0")])]

/-- Handshake frame with a meta block but no version field. -/
def handshakeNoVersion : Json := .obj [("meta", .obj [])]

/-- An envelope whose caller-supplied meta map already binds request_id. -/
def envelopeWithOldId : JObj :=
  [("action", .arr [.str "rescues", .str "update"]),
   ("meta", .obj [("request_id", .str "old"), ("trace", .str "t")])]

/-- A batch of received messages that exercises every caught-and-skipped
branch of the listener loop body. -/
def benignFrames : List (Option Json) :=
  [none,
   some (.obj []),
   some (.obj [("meta", .obj [])]),
   some (.obj [("meta", .obj [("request_id", .str "zzz")])]),
   some sampleResponse]

/-- A rescue without a case identifier. -/
def noIdRescue : Rescue := ⟨.null, fun _ => .obj []⟩

/-- A rescue with a case identifier. -/
def okRescue : Rescue := ⟨.str "abc123", fun _ => .obj [("x", .num 1)]⟩

/-- A handler whose connection is not open. -/
def closedState : HandlerState := ⟨∅, [], false, [], false⟩

/-!
Supporting lemmas: dictionary operations, then how one listener step acts
on the entry of a fixed correlation identifier.
-/

theorem lookupN_setKeyN_self (m : List (Nat × Json)) (k : Nat) (v : Json) :
    lookupN (setKeyN m k v) k = some v := by
  induction m with
  | nil => simp [setKeyN, lookupN]
  | cons p rest ih =>
    obtain ⟨k', v'⟩ := p
    by_cases h : k' = k
    · subst h; simp [setKeyN, lookupN]
    · simp [setKeyN, lookupN, h, ih]

theorem lookupN_setKeyN_ne (m : List (Nat × Json)) (k k' : Nat) (v : Json)
    (h : k' ≠ k) : lookupN (setKeyN m k v) k' = lookupN m k' := by
  induction m with
  | nil => simp [setKeyN, lookupN, Ne.symm h]
  | cons p rest ih =>
    obtain ⟨k0, v0⟩ := p
    by_cases h0 : k0 = k
    · subst h0
      simp [setKeyN, lookupN, Ne.symm h]
    · simp [setKeyN, lookupN, h0, ih]

theorem jlookup_setKey_self (m : JObj) (k : String) (v : Json) :
    jlookup (setKey m k v) k = some v := by
  induction m with
  | nil => simp [setKey, jlookup]
  | cons p rest ih =>
    obtain ⟨k', v'⟩ := p
    by_cases h : k' = k
    · subst h; simp [setKey, jlookup]
    · simp [setKey, jlookup, h, ih]

theorem jlookup_setKey_ne (m : JObj) (k k' : String) (v : Json)
    (h : k' ≠ k) : jlookup (setKey m k v) k' = jlookup m k' := by
  induction m with
  | nil => simp [setKey, jlookup, Ne.symm h]
  | cons p rest ih =>
    obtain ⟨k0, v0⟩ := p
    by_cases h0 : k0 = k
    · subst h0
      simp [setKey, jlookup, Ne.symm h]
    · simp [setKey, jlookup, h0, ih]

theorem jlookup_append_of_none (m l : JObj) (k : String)
    (h : jlookup m k = none) : jlookup (m ++ l) k = jlookup l k := by
  induction m with
  | nil => simp
  | cons p rest ih =>
    obtain ⟨k0, v0⟩ := p
    by_cases h0 : k0 = k
    · simp [jlookup, h0] at h
    · simp [jlookup, h0] at h ⊢
      exact ih h

theorem handleMessage_state_of_frameRid_none (st : HandlerState)
    (frame : Option Json) (h : frameRid frame = none) :
    (handleMessage st frame).1 = st := by
  cases frame with
  | none => rfl
  | some data =>
    unfold handleMessage
    unfold frameRid at h
    cases hm : getItem data "meta" with
    | error e => cases e <;> simp [hm]
    | ok meta =>
      simp only [hm]
      cases hr : getItem meta "request_id" with
      | error e => cases e <;> simp [hr]
      | ok rid =>
        simp only [hr]
        cases hu : pyUUID rid with
        | error e => cases e <;> simp [hu]
        | ok id =>
          simp only [hm, hr, hu] at h
          exact Option.noConfusion h

theorem handleMessage_of_frameRid_some (st : HandlerState) (data : Json)
    (id : Nat) (h : frameRid (some data) = some id) :
    handleMessage st (some data) =
      if id ∈ st.waiting then
        ({ st with
            responses := setKeyN st.responses id data,
            waiting := st.waiting.erase id }, .next)
      else (st, .next) := by
  unfold handleMessage
  unfold frameRid at h
  cases hm : getItem data "meta" with
  | error e => simp [hm] at h
  | ok meta =>
    simp only [hm] at h ⊢
    cases hr : getItem meta "request_id" with
    | error e => simp [hr] at h
    | ok rid =>
      simp only [hr] at h ⊢
      cases hu : pyUUID rid with
      | error e => simp [hu] at h
      | ok id' =>
        simp only [hu] at h ⊢
        cases h
        rfl

theorem listenerStep_not_matching (st : HandlerState) (frame : Option Json)
    (rid : Nat) (h : frameRid frame ≠ some rid) :
    (rid ∈ (listenerStep st frame).waiting ↔ rid ∈ st.waiting) ∧
    lookupN (listenerStep st frame).responses rid = lookupN st.responses rid := by
  unfold listenerStep
  by_cases ha : st.listenerAlive
  · simp only [ha, if_true]
    cases hf : frameRid frame with
    | none =>
      have hst := handleMessage_state_of_frameRid_none st frame hf
      cases hh : handleMessage st frame with
      | mk st' out =>
        simp only [hh] at hst
        cases out <;> simp [hst]
    | some id =>
      cases frame with
      | none => simp [frameRid] at hf
      | some data =>
        rw [handleMessage_of_frameRid_some st data id hf]
        have hne : rid ≠ id := by
          intro he; exact h (he ▸ hf)
        by_cases hw : id ∈ st.waiting
        · simp [hw, Finset.mem_erase, hne, lookupN_setKeyN_ne _ _ _ _ hne]
        · simp [hw]
  · simp [ha]

theorem listenerStep_unregistered (st : HandlerState) (frame : Option Json)
    (rid : Nat) (h : rid ∉ st.waiting) :
    rid ∉ (listenerStep st frame).waiting ∧
    lookupN (listenerStep st frame).responses rid = lookupN st.responses rid := by
  by_cases hf : frameRid frame = some rid
  · unfold listenerStep
    by_cases ha : st.listenerAlive
    · cases frame with
      | none => simp [frameRid] at hf
      | some data =>
        rw [handleMessage_of_frameRid_some st data rid hf]
        simp [ha, h]
    · simp [ha, h]
  · have := listenerStep_not_matching st frame rid hf
    exact ⟨fun hc => h (this.1.mp hc), this.2⟩

theorem listenerStep_matching (st : HandlerState) (data : Json) (rid : Nat)
    (hf : frameRid (some data) = some rid) (ha : st.listenerAlive = true)
    (hw : rid ∈ st.waiting) :
    rid ∉ (listenerStep st (some data)).waiting ∧
    lookupN (listenerStep st (some data)).responses rid = some data := by
  unfold listenerStep
  rw [handleMessage_of_frameRid_some st data rid hf]
  simp [ha, hw, lookupN_setKeyN_self]

theorem listenerStep_sent_open (st : HandlerState) (frame : Option Json) :
    (listenerStep st frame).sent = st.sent ∧
    (listenerStep st frame).connectionOpen = st.connectionOpen := by
  unfold listenerStep
  by_cases ha : st.listenerAlive
  · simp only [ha, if_true]
    cases hf : frameRid frame with
    | none =>
      have hst := handleMessage_state_of_frameRid_none st frame hf
      cases hh : handleMessage st frame with
      | mk st' out =>
        simp only [hh] at hst
        cases out <;> simp [hst]
    | some id =>
      cases frame with
      | none => simp [frameRid] at hf
      | some data =>
        rw [handleMessage_of_frameRid_some st data id hf]
        by_cases hw : id ∈ st.waiting <;> simp [hw]
  · simp [ha]

theorem processFrames_unregistered (rid : Nat) (frames : List (Option Json)) :
    ∀ st : HandlerState, rid ∉ st.waiting →
      rid ∉ (processFrames st frames).waiting ∧
      lookupN (processFrames st frames).responses rid = lookupN st.responses rid := by
  induction frames with
  | nil => intro st h; exact ⟨h, rfl⟩
  | cons f rest ih =>
    intro st h
    have hs := listenerStep_unregistered st f rid h
    have := ih (listenerStep st f) hs.1
    exact ⟨this.1, this.2.trans hs.2⟩

theorem processFrames_sent_open (frames : List (Option Json)) :
    ∀ st : HandlerState,
      (processFrames st frames).sent = st.sent ∧
      (processFrames st frames).connectionOpen = st.connectionOpen := by
  induction frames with
  | nil => intro st; exact ⟨rfl, rfl⟩
  | cons f rest ih =>
    intro st
    have hs := listenerStep_sent_open st f
    have := ih (listenerStep st f)
    exact ⟨this.1.trans hs.1, this.2.trans hs.2⟩

/-!
Lemmas about the suspension loop of _retrieve_response and about a run of
request on an open connection.
-/

theorem waitLoopRun_val_state (rid : Nat) (frames : List (Option Json)) :
    ∀ (st : HandlerState) (v : Json) (st' : HandlerState),
      waitLoopRun rid st frames = (.val v, st') →
      lookupN st'.responses rid = some v := by
  induction frames with
  | nil =>
    intro st v st' h
    unfold waitLoopRun at h
    by_cases hw : rid ∈ st.waiting
    · simp [hw] at h
    · simp only [hw, if_false] at h
      cases hl : lookupN st.responses rid with
      | none => simp [hl] at h
      | some w =>
        simp [hl] at h
        obtain ⟨h1, h2⟩ := h
        subst h2
        rw [hl, h1]
  | cons f rest ih =>
    intro st v st' h
    unfold waitLoopRun at h
    by_cases hw : rid ∈ st.waiting
    · simp only [hw, if_true] at h
      exact ih _ v st' h
    · simp only [hw, if_false] at h
      cases hl : lookupN st.responses rid with
      | none => simp [hl] at h
      | some w =>
        simp [hl] at h
        obtain ⟨h1, h2⟩ := h
        subst h2
        rw [hl, h1]

theorem waitLoopRun_val_unique (rid : Nat) (fm : Json)
    (frames : List (Option Json)) :
    ∀ (st : HandlerState),
      rid ∈ st.waiting →
      lookupN st.responses rid = none →
      (∀ f ∈ frames, frameRid f = some rid → f = some fm) →
      ∀ (v : Json) (st' : HandlerState),
        waitLoopRun rid st frames = (.val v, st') → v = fm := by
  induction frames with
  | nil =>
    intro st hw _ _ v st' h
    unfold waitLoopRun at h
    simp [hw] at h
  | cons f rest ih =>
    intro st hw hr hu v st' h
    unfold waitLoopRun at h
    simp only [hw, if_true] at h
    by_cases hf : frameRid f = some rid
    · have hfm : f = some fm := hu f (by simp) hf
      subst hfm
      by_cases ha : st.listenerAlive
      · have hm := listenerStep_matching st fm rid hf ha hw
        unfold waitLoopRun at h
        cases rest with
        | nil =>
          simp only [hm.1, if_false] at h
          rw [hm.2] at h
          simp at h
          exact h.1.symm
        | cons g rest' =>
          simp only [hm.1, if_false] at h
          rw [hm.2] at h
          simp at h
          exact h.1.symm
      · have hstep : listenerStep st (some fm) = st := by
          unfold listenerStep
          simp [ha]
        rw [hstep] at h
        exact ih st hw hr (fun g hg => hu g (by simp [hg])) v st' h
    · have hs := listenerStep_not_matching st f rid hf
      exact ih (listenerStep st f)
        (hs.1.mpr hw) (hs.2.trans hr)
        (fun g hg => hu g (by simp [hg])) v st' h

theorem waitLoopRun_sent (rid : Nat) (frames : List (Option Json)) :
    ∀ st : HandlerState,
      (waitLoopRun rid st frames).2.sent = st.sent := by
  induction frames with
  | nil =>
    intro st
    unfold waitLoopRun
    by_cases hw : rid ∈ st.waiting
    · simp [hw]
    · simp only [hw, if_false]
      cases hl : lookupN st.responses rid <;> simp
  | cons f rest ih =>
    intro st
    unfold waitLoopRun
    by_cases hw : rid ∈ st.waiting
    · simp only [hw, if_true]
      exact (ih _).trans (listenerStep_sent_open st f).1
    · simp only [hw, if_false]
      cases hl : lookupN st.responses rid <;> simp

theorem request_result_of_open (st : HandlerState) (requestId : Nat)
    (data data' : JObj) (sched : Sched)
    (hattach : attachRequestId data requestId = .ok data')
    (hopen : st.connectionOpen = true) :
    request st requestId data sched =
      ⟨(waitLoopRun requestId
          { processFrames { st with sent := st.sent ++ [.obj data'] }
              sched.duringSend with
            waiting := insert requestId
              (processFrames { st with sent := st.sent ++ [.obj data'] }
                sched.duringSend).waiting }
          sched.duringWait).1,
        data',
        (waitLoopRun requestId
          { processFrames { st with sent := st.sent ++ [.obj data'] }
              sched.duringSend with
            waiting := insert requestId
              (processFrames { st with sent := st.sent ++ [.obj data'] }
                sched.duringSend).waiting }
          sched.duringWait).2⟩ := by
  unfold request
  rw [hattach]
  unfold sendRaw
  rw [hopen]
  simp only [if_true, retrieveResponse, Finset.mem_insert_self, if_pos]

theorem attachRequestId_of_meta_none (data : JObj) (requestId : Nat)
    (h : jlookup data "meta" = none) :
    attachRequestId data requestId =
      .ok (data ++ [("meta", .obj [("request_id", .str (uuidStr requestId))])]) := by
  unfold attachRequestId
  rw [h]

theorem attachRequestId_of_meta_obj (data m : JObj) (requestId : Nat)
    (h : jlookup data "meta" = some (.obj m)) :
    attachRequestId data requestId =
      .ok (setKey data "meta"
        (.obj (setKey m "request_id" (.str (uuidStr requestId))))) := by
  unfold attachRequestId
  rw [h]

theorem request_envelope_of_attach (st : HandlerState) (requestId : Nat)
    (data data' : JObj) (sched : Sched)
    (hattach : attachRequestId data requestId = .ok data') :
    (request st requestId data sched).envelope = data' := by
  cases hopen : st.connectionOpen with
  | false =>
    unfold request
    rw [hattach]
    unfold sendRaw
    rw [hopen]
    rfl
  | true =>
    rw [request_result_of_open st requestId data data' sched hattach hopen]

theorem handleMessage_next_of_benign (st : HandlerState) (frame : Option Json)
    (h : benignShape frame = true) : (handleMessage st frame).2 = .next := by
  cases frame with
  | none => rfl
  | some data =>
    unfold handleMessage
    unfold benignShape at h
    cases hm : getItem data "meta" with
    | error e => cases e <;> simp [hm] at h ⊢
    | ok meta =>
      simp only [hm] at h ⊢
      cases hr : getItem meta "request_id" with
      | error e => cases e <;> simp [hr] at h ⊢
      | ok rid =>
        simp only [hr] at h ⊢
        cases rid <;> simp at h ⊢
        rename_i s
        unfold pyUUID
        cases hus : uuidFromString s with
        | none => simp [hus]
        | some id =>
          simp only [hus]
          by_cases hw : id ∈ st.waiting <;> simp [hw]

/-!
The claims: one theorem per claim, with its witness or counterexample.
-/

/-- C1, amended: whenever a call to request on an open connection returns a
value, and exactly one frame delivered after registration has a meta
request_id parsing to the minted identifier, the value returned is that
entire decoded frame, not merely its data field.  (The claim as frozen says
the data field alone is returned; the counterexample below refutes that.) -/
theorem request_returns_whole_matching_frame
    (st : HandlerState) (requestId : Nat) (data : JObj) (sched : Sched)
    (fm v : Json)
    (hW : requestId ∉ st.waiting)
    (hR : lookupN st.responses requestId = none)
    (hU : ∀ f ∈ sched.duringWait, frameRid f = some requestId → f = some fm)
    (hv : (request st requestId data sched).result = .val v) :
    v = fm := by
  cases hattach : attachRequestId data requestId with
  | error e =>
    unfold request at hv
    rw [hattach] at hv
    simp at hv
  | ok data' =>
    cases hopen : st.connectionOpen with
    | false =>
      unfold request at hv
      rw [hattach] at hv
      unfold sendRaw at hv
      rw [hopen] at hv
      simp at hv
    | true =>
      rw [request_result_of_open st requestId data data' sched hattach hopen] at hv
      set st1 : HandlerState := { st with sent := st.sent ++ [.obj data'] } with hst1
      set st2 := processFrames st1 sched.duringSend with hst2
      have hpre : requestId ∉ st2.waiting ∧
          lookupN st2.responses requestId = lookupN st1.responses requestId :=
        processFrames_unregistered requestId sched.duringSend st1 hW
      set st3 : HandlerState := { st2 with waiting := insert requestId st2.waiting } with hst3
      cases hrun : waitLoopRun requestId st3 sched.duringWait with
      | mk res stF =>
        simp only [hrun] at hv
        cases res with
        | val w =>
          have hw : w = v := by
            simpa using hv
          subst hw
          exact waitLoopRun_val_unique requestId fm sched.duringWait st3
            (by simp [hst3]) (hpre.2.trans hR) hU w stF hrun
        | err e => simp at hv
        | hang => simp at hv

/-- C1 counterexample: in the concrete scenario of the spec, request
returns the whole server frame, which differs from its data payload. -/
theorem request_not_payload_cex :
    (request initialOpenState 0 sampleEnvelope ⟨[], [some sampleResponse]⟩).result =
      .val sampleResponse ∧ sampleResponse ≠ samplePayload :=
  ⟨rfl, fun h => absurd (congrArg topKeys h) (by decide)⟩

/-- C1 witness: the hypotheses of the amended theorem hold in the concrete
scenario. -/
theorem request_returns_whole_matching_frame_witness :
    lookupN initialOpenState.responses 0 = none ∧
    (request initialOpenState 0 sampleEnvelope ⟨[], [some sampleResponse]⟩).result =
      .val sampleResponse ∧
    sampleResponse = sampleResponse :=
  ⟨rfl, rfl,
    request_returns_whole_matching_frame initialOpenState 0 sampleEnvelope
      ⟨[], [some sampleResponse]⟩ sampleResponse sampleResponse
      (by decide) rfl
      (fun f hf _ => by simpa using hf) rfl⟩

/-- C2: the identifier is registered only after the send await returns, so
the very same response frame that resolves the request when it arrives
after registration is dropped as unexpected, and the request hangs forever,
when it arrives while the send is in flight. -/
theorem request_registration_race :
    (request initialOpenState 0 sampleEnvelope ⟨[some sampleResponse], []⟩).result =
      .hang ∧
    (request initialOpenState 0 sampleEnvelope ⟨[], [some sampleResponse]⟩).result =
      .val sampleResponse :=
  ⟨rfl, rfl⟩

/-- C3, amended: the listener loop survives every received message that is
undecodable, or decodes to a dict lacking meta, or whose meta dict lacks
request_id, or whose request_id is a string, and ends only when the
transport closes; but a decodable message of any other shape (for instance
a JSON array) raises an uncaught TypeError that ends the loop, as the
counterexample below shows. -/
theorem listener_survives_benign_frames (frames : List (Option Json)) :
    ∀ st : HandlerState, frames.all benignShape = true →
      (messageHandlerLoop st frames).2 = .closed := by
  induction frames with
  | nil => intro st _; rfl
  | cons f rest ih =>
    intro st h
    rw [List.all_cons, Bool.and_eq_true] at h
    unfold messageHandlerLoop
    cases hh : handleMessage st f with
    | mk st' out =>
      have hnext := handleMessage_next_of_benign st f h.1
      rw [hh] at hnext
      simp only at hnext
      subst hnext
      exact ih st' h.2

/-- C3 counterexample: a frame that decodes to a JSON array ends the
listener loop with an uncaught TypeError. -/
theorem listener_crashes_on_array_cex :
    (messageHandlerLoop initialOpenState [some (Json.arr [])]).2 =
      .crashed .typeError :=
  rfl

/-- C3 witness: a concrete batch covering every benign malformation is
survived and the loop ends only by transport closure. -/
theorem listener_survives_benign_frames_witness :
    benignFrames.all benignShape = true ∧
    (messageHandlerLoop initialOpenState benignFrames).2 = .closed :=
  ⟨rfl, listener_survives_benign_frames benignFrames initialOpenState rfl⟩

/-- C4, amended: when request returns a value, the response store still
holds the entry of the identifier afterwards, mapped to the very value
returned: _retrieve_response reads the entry back without deleting it, so
an entry does outlive its requester picking it up.  (The claim as frozen
says the entry is removed on pickup; the counterexample below refutes
that.) -/
theorem request_keeps_response_entry
    (st : HandlerState) (requestId : Nat) (data : JObj) (sched : Sched)
    (v : Json)
    (hv : (request st requestId data sched).result = .val v) :
    lookupN (request st requestId data sched).state.responses requestId = some v := by
  cases hattach : attachRequestId data requestId with
  | error e =>
    unfold request at hv
    rw [hattach] at hv
    simp at hv
  | ok data' =>
    cases hopen : st.connectionOpen with
    | false =>
      unfold request at hv
      rw [hattach] at hv
      unfold sendRaw at hv
      rw [hopen] at hv
      simp at hv
    | true =>
      rw [request_result_of_open st requestId data data' sched hattach hopen] at hv ⊢
      set st3 : HandlerState :=
        { processFrames { st with sent := st.sent ++ [.obj data'] }
            sched.duringSend with
          waiting := insert requestId
            (processFrames { st with sent := st.sent ++ [.obj data'] }
              sched.duringSend).waiting } with hst3
      cases hrun : waitLoopRun requestId st3 sched.duringWait with
      | mk res stF =>
        simp only [hrun] at hv ⊢
        cases res with
        | val w =>
          have hw : w = v := by simpa using hv
          subst hw
          exact waitLoopRun_val_state requestId sched.duringWait st3 w stF hrun
        | err e => simp at hv
        | hang => simp at hv

/-- C4 counterexample: after the concrete request returns, the response
store still contains the entry of identifier 0. -/
theorem response_entry_outlives_pickup_cex :
    (request initialOpenState 0 sampleEnvelope ⟨[], [some sampleResponse]⟩).result =
      .val sampleResponse ∧
    lookupN (request initialOpenState 0 sampleEnvelope
        ⟨[], [some sampleResponse]⟩).state.responses 0 = some sampleResponse :=
  ⟨rfl, rfl⟩

/-- C4 witness: the amended theorem applied to the concrete scenario. -/
theorem request_keeps_response_entry_witness :
    lookupN (request initialOpenState 0 sampleEnvelope
        ⟨[], [some sampleResponse]⟩).state.responses 0 = some sampleResponse :=
  request_keeps_response_entry initialOpenState 0 sampleEnvelope
    ⟨[], [some sampleResponse]⟩ sampleResponse rfl

/-- C5, amended: a handshake declaring a version other than the required
one makes connect raise the version-mismatch APIError and not start the
listener, but the transport opened just before stays open, so the
connected predicate is true after the failed call.  (The claim as frozen
says connected remains false; the counterexample below refutes that.) -/
theorem connect_mismatch_leaves_open (j v : Json) (ver : String)
    (hv : versionField j = .ok v) (hne : jsonStrEq v ver = false) :
    connect false (some j) ver =
      ⟨.raised (.apiError "Mismatched API and client versions!"), true, false⟩ := by
  simp [connect, hv, hne]

/-- C5 counterexample: the concrete v1.0-against-v2.1 scenario fails with
the mismatch error yet leaves the connection open. -/
theorem connect_mismatch_connected_cex :
    (connect false (some handshakeV10) apiVersion21).result =
      .raised (.apiError "Mismatched API and client versions!") ∧
    (connect false (some handshakeV10) apiVersion21).connectionOpen = true :=
  ⟨rfl, rfl⟩

/-- C5 witness: the amended theorem applied to the concrete scenario. -/
theorem connect_mismatch_leaves_open_witness :
    versionField handshakeV10 = .ok (.str "v1.0") ∧
    jsonStrEq (.str "v1.0") apiVersion21 = false ∧
    connect false (some handshakeV10) apiVersion21 =
      ⟨.raised (.apiError "Mismatched API and client versions!"), true, false⟩ :=
  ⟨rfl, rfl,
    connect_mismatch_leaves_open handshakeV10 (.str "v1.0") apiVersion21 rfl rfl⟩

/-- C6, amended: a handshake that decodes to a dict on which the version
lookup raises KeyError leaves connect successful with the listener
started, and an undecodable handshake makes connect fail with APIError;
but a handshake that decodes to a non-dict raises an uncaught TypeError,
so connect does not succeed there, as the counterexample below shows. -/
theorem connect_missing_version_succeeds (j : Json) (ver : String)
    (h : versionField j = .error .keyError) :
    connect false (some j) ver = ⟨.success, true, true⟩ ∧
    connect false none ver =
      ⟨.raised (.apiError "Connect message from the API could not be parsed"),
        true, false⟩ :=
  ⟨by simp [connect, h], rfl⟩

/-- C6 counterexample: a handshake decoding to a JSON array has no version
field, yet connect raises TypeError instead of succeeding. -/
theorem connect_array_handshake_cex :
    (connect false (some (Json.arr [])) apiVersion21).result = .raised .typeError ∧
    ConnectResult.raised .typeError ≠ .success :=
  ⟨rfl, by decide⟩

/-- C6 witness: a dict handshake with a meta block lacking the version
field leaves connect successful. -/
theorem connect_missing_version_succeeds_witness :
    versionField handshakeNoVersion = .error .keyError ∧
    connect false (some handshakeNoVersion) apiVersion21 = ⟨.success, true, true⟩ :=
  ⟨rfl,
    (connect_missing_version_succeeds handshakeNoVersion apiVersion21 rfl).1⟩

/-- C7, amended: request attaches the textual form of the fresh identifier
under request_id in the meta dict, creating the dict when absent and
otherwise keeping every entry at a key other than request_id; a
caller-supplied request_id entry, however, is overwritten by the fresh
identifier, as the counterexample below shows. -/
theorem request_id_attachment (data : JObj) (requestId : Nat) :
    (jlookup data "meta" = none →
      attachRequestId data requestId =
        .ok (data ++ [("meta", .obj [("request_id", .str (uuidStr requestId))])])) ∧
    (∀ m : JObj, jlookup data "meta" = some (.obj m) →
      attachRequestId data requestId =
        .ok (setKey data "meta"
          (.obj (setKey m "request_id" (.str (uuidStr requestId))))) ∧
      jlookup (setKey m "request_id" (.str (uuidStr requestId))) "request_id" =
        some (.str (uuidStr requestId)) ∧
      ∀ k, k ≠ "request_id" →
        jlookup (setKey m "request_id" (.str (uuidStr requestId))) k =
          jlookup m k) := by
  constructor
  · intro h
    exact attachRequestId_of_meta_none data requestId h
  · intro m h
    exact ⟨attachRequestId_of_meta_obj data m requestId h,
      jlookup_setKey_self m "request_id" _,
      fun k hk => jlookup_setKey_ne m "request_id" k _ hk⟩

/-- C7 counterexample: an envelope whose meta dict already binds
request_id has that binding replaced by the fresh identifier, so not all
existing entries are preserved. -/
theorem request_id_overwritten_cex :
    attachRequestId envelopeWithOldId 0 =
      .ok [("action", .arr [.str "rescues", .str "update"]),
           ("meta", .obj [("request_id", .str (uuidStr 0)), ("trace", .str "t")])] ∧
    uuidStr 0 ≠ "old" :=
  ⟨rfl, by decide⟩

/-- C7 witness: the amended theorem applied to that same envelope keeps
the entry at the trace key. -/
theorem request_id_attachment_witness :
    attachRequestId envelopeWithOldId 0 =
      .ok (setKey envelopeWithOldId "meta"
        (.obj (setKey [("request_id", .str "old"), ("trace", .str "t")]
          "request_id" (.str (uuidStr 0))))) ∧
    jlookup (setKey [("request_id", .str "old"), ("trace", .str "t")]
      "request_id" (.str (uuidStr 0))) "trace" = some (.str "t") :=
  ⟨((request_id_attachment envelopeWithOldId 0).2
      [("request_id", .str "old"), ("trace", .str "t")] rfl).1,
    (((request_id_attachment envelopeWithOldId 0).2
      [("request_id", .str "old"), ("trace", .str "t")] rfl).2.2 "trace"
        (by decide)).trans rfl⟩

/-- C8: request mutates the caller-owned dict in place before attempting
the send: afterwards its meta request_id holds the textual identifier,
even when the call fails because the connection is not open (in which case
nothing is sent and the handler state is untouched); on an open connection
the frame sent is the serialized mutated envelope. -/
theorem request_mutates_envelope
    (st : HandlerState) (requestId : Nat) (data : JObj) (sched : Sched)
    (h : jlookup data "meta" = none ∨ ∃ m : JObj, jlookup data "meta" = some (.obj m)) :
    metaRequestId (request st requestId data sched).envelope =
      some (.str (uuidStr requestId)) ∧
    (st.connectionOpen = false →
      (request st requestId data sched).result =
        .err (.apiError "Not connected to any server") ∧
      (request st requestId data sched).state = st) ∧
    (st.connectionOpen = true →
      (request st requestId data sched).state.sent =
        st.sent ++ [.obj (request st requestId data sched).envelope]) := by
  obtain ⟨data', hattach, hmeta⟩ :
      ∃ data', attachRequestId data requestId = .ok data' ∧
        metaRequestId data' = some (.str (uuidStr requestId)) := by
    rcases h with h | ⟨m, h⟩
    · refine ⟨_, attachRequestId_of_meta_none data requestId h, ?_⟩
      unfold metaRequestId
      rw [jlookup_append_of_none data _ "meta" h]
      simp [jlookup]
    · refine ⟨_, attachRequestId_of_meta_obj data m requestId h, ?_⟩
      unfold metaRequestId
      rw [jlookup_setKey_self]
      exact jlookup_setKey_self m "request_id" _
  have henv := request_envelope_of_attach st requestId data data' sched hattach
  refine ⟨henv ▸ hmeta, ?_, ?_⟩
  · intro hopen
    unfold request
    rw [hattach]
    unfold sendRaw
    rw [hopen]
    exact ⟨rfl, rfl⟩
  · intro hopen
    rw [request_result_of_open st requestId data data' sched hattach hopen]
    dsimp only
    rw [waitLoopRun_sent]
    dsimp only
    exact (processFrames_sent_open sched.duringSend
      { st with sent := st.sent ++ [Json.obj data'] }).1

/-- C8 witness: on a handler that is not connected, the envelope still
carries the minted identifier after the failed call, and nothing changed
in the handler state. -/
theorem request_mutates_envelope_witness :
    metaRequestId (request closedState 0 sampleEnvelope ⟨[], []⟩).envelope =
      some (.str (uuidStr 0)) ∧
    (request closedState 0 sampleEnvelope ⟨[], []⟩).result =
      .err (.apiError "Not connected to any server") ∧
    (request closedState 0 sampleEnvelope ⟨[], []⟩).state = closedState :=
  ⟨(request_mutates_envelope closedState 0 sampleEnvelope ⟨[], []⟩
      (Or.inl rfl)).1,
    ((request_mutates_envelope closedState 0 sampleEnvelope ⟨[], []⟩
      (Or.inl rfl)).2.1 rfl).1,
    ((request_mutates_envelope closedState 0 sampleEnvelope ⟨[], []⟩
      (Or.inl rfl)).2.1 rfl).2⟩

/-- C9: _retrieve_response raises APIError for every identifier outside
the waiting set, even one whose response already sits in the response
store after the listener resolved it. -/
theorem retrieveResponse_unregistered_raises (st : HandlerState) (rid : Nat)
    (frames : List (Option Json)) (h : rid ∉ st.waiting) :
    retrieveResponse st rid frames =
      (.err (.apiError "Cannot wait for response to a request that was never made"),
        st) := by
  unfold retrieveResponse
  rw [if_neg h]

/-- C9 witness: a state in which request 0 is already resolved, its
response unconsumed in the store, still gets the APIError. -/
theorem retrieveResponse_unregistered_raises_witness :
    (0 ∉ resolvedState.waiting) ∧
    lookupN resolvedState.responses 0 = some sampleResponse ∧
    retrieveResponse resolvedState 0 [] =
      (.err (.apiError "Cannot wait for response to a request that was never made"),
        resolvedState) :=
  ⟨by decide, rfl,
    retrieveResponse_unregistered_raises resolvedState 0 [] (by decide)⟩

/-- C10: update_rescue raises APIError and sends nothing for a rescue with
a falsy case identifier, and otherwise delegates exactly the envelope of
action rescues-update, the case identifier and the serialized rescue to
request, returning the result of that call. -/
theorem updateRescue_envelope (st : HandlerState) (requestId : Nat)
    (sched : Sched) (rescue : Rescue) (full : Bool) :
    (pyTruthy rescue.case_id = false →
      updateRescue st requestId sched rescue full =
        (.err (.apiError "Cannot send rescue without ID to the API"), st)) ∧
    (pyTruthy rescue.case_id = true →
      updateRescue st requestId sched rescue full =
        ((request st requestId
            [("action", .arr [.str "rescues", .str "update"]),
             ("id", rescue.case_id),
             ("data", rescue.json full)] sched).result,
          (request st requestId
            [("action", .arr [.str "rescues", .str "update"]),
             ("id", rescue.case_id),
             ("data", rescue.json full)] sched).state)) := by
  constructor
  · intro h
    unfold updateRescue
    rw [h]
    rfl
  · intro h
    unfold updateRescue
    rw [h]
    rfl

/-- C10 witness: both branches at concrete rescues. -/
theorem updateRescue_envelope_witness :
    updateRescue initialOpenState 0 ⟨[], []⟩ noIdRescue true =
      (.err (.apiError "Cannot send rescue without ID to the API"),
        initialOpenState) ∧
    updateRescue initialOpenState 0 ⟨[], []⟩ okRescue false =
      ((request initialOpenState 0
          [("action", .arr [.str "rescues", .str "update"]),
           ("id", okRescue.case_id),
           ("data", okRescue.json false)] ⟨[], []⟩).result,
        (request initialOpenState 0
          [("action", .arr [.str "rescues", .str "update"]),
           ("id", okRescue.case_id),
           ("data", okRescue.json false)] ⟨[], []⟩).state) :=
  ⟨(updateRescue_envelope initialOpenState 0 ⟨[], []⟩ noIdRescue true).1 rfl,
    (updateRescue_envelope initialOpenState 0 ⟨[], []⟩ okRescue false).2 rfl⟩
